import Mathlib

/-!
Shallow embedding of the geometric plotting core of evo/tools/plot.py:
axis projection (plot_mode_to_idx), colored segment construction
(colored_line_collection), coordinate-frame triads (draw_coordinate_axes),
correspondence edges (draw_correspondence_edges), the georegistration
steps of ros_map, and the construction of PlotCollection.
Pixel counts and coordinates are embedded as exact rationals; the yaw
angle of a map origin, fed to trigonometric functions, is a real number.
-/

/-- Plot modes, plot.py lines 96 to 103. -/
inductive PlotMode where
  | xy | xz | yx | yz | zx | zy | xyz
deriving DecidableEq

/-- Viewport policies, plot.py lines 107 to 110. -/
inductive Viewport where
  | update | keep_unchanged | zoom_to_map
deriving DecidableEq

/-- Errors raised via PlotException in plot.py, structured so that the
values embedded in the message text are kept as fields. The first field
of colorLengthMismatch is len(xyz) / step, computed by Python true
division, hence a rational. -/
inductive PlotException where
  | colorLengthMismatch (ratio : ℚ) (colorCount : Nat)
  | trajectoryLengthMismatch
deriving DecidableEq

/-- A 3D point, one row of a positions_xyz array. -/
abbrev Pt3 := Fin 3 → ℚ

/-- plot_mode_to_idx, plot.py lines 339 to 360, mirroring the if and elif
chain of the source. The enumeration is closed, so the final elif for zy
is the final else branch here. -/
def plot_mode_to_idx (plot_mode : PlotMode) : Fin 3 × Fin 3 × Option (Fin 3) :=
  let xy_idx : Fin 3 × Fin 3 :=
    if plot_mode = PlotMode.xy ∨ plot_mode = PlotMode.xyz then (0, 1)
    else if plot_mode = PlotMode.xz then (0, 2)
    else if plot_mode = PlotMode.yx then (1, 0)
    else if plot_mode = PlotMode.yz then (1, 2)
    else if plot_mode = PlotMode.zx then (2, 0)
    else (2, 1)
  let z_idx : Option (Fin 3) := if plot_mode = PlotMode.xyz then some 2 else none
  (xy_idx.1, xy_idx.2, z_idx)

/-- Slice helper: everyNthAux step k l first skips k elements, then keeps
one element and skips step minus 1, repeatedly. -/
def everyNthAux {α : Type} (step : Nat) : Nat → List α → List α
  | _, [] => []
  | 0, a :: rest => a :: everyNthAux step (step - 1) rest
  | k + 1, _ :: rest => everyNthAux step k rest

/-- The extended Python slice l[::step] for step at least 1. -/
def everyNth {α : Type} (step : Nat) (l : List α) : List α :=
  everyNthAux step 0 l

/-- The pairs obtained by zipping the strided slices xyz[:-1:step] and
xyz[1::step], before projection onto plot axes; this is the pairing
performed coordinatewise in plot.py lines 428 to 434. -/
def segEndpoints {α : Type} (xyz : List α) (step : Nat) : List (α × α) :=
  (everyNth step xyz.dropLast).zip (everyNth step (xyz.drop 1))

/-- Result of colored_line_collection: a 2D LineCollection or a 3D
Line3DCollection, holding per-segment endpoint pairs together with the
colors, line style and alpha passed through to the backend. -/
inductive LineColl where
  | seg2d (segments : List ((ℚ × ℚ) × (ℚ × ℚ))) (colors : List String)
      (linestyles : String) (alpha : ℚ)
  | seg3d (segments : List ((ℚ × ℚ × ℚ) × (ℚ × ℚ × ℚ))) (colors : List String)
      (linestyles : String) (alpha : ℚ)
deriving DecidableEq

/-- The color sequence of a line collection. -/
def LineColl.colors : LineColl → List String
  | seg2d _ cs _ _ => cs
  | seg3d _ cs _ _ => cs

/-- The number of segments of a line collection. -/
def LineColl.nSegments : LineColl → Nat
  | seg2d segs _ _ _ => segs.length
  | seg3d segs _ _ _ => segs.length

/-- colored_line_collection, plot.py lines 419 to 443. Python evaluates
len(xyz) / step with true division, embedded here as division in ℚ. -/
def colored_line_collection (xyz : List Pt3) (colors : List String)
    (plot_mode : PlotMode) (linestyles : String) (step : Nat) (alpha : ℚ) :
    Except PlotException LineColl :=
  if step > 1 ∧ (xyz.length : ℚ) / (step : ℚ) ≠ (colors.length : ℚ) then
    .error (.colorLengthMismatch ((xyz.length : ℚ) / (step : ℚ)) colors.length)
  else
    let idx := plot_mode_to_idx plot_mode
    let xs := ((everyNth step xyz.dropLast).map (fun p => p idx.1)).zip
      ((everyNth step (xyz.drop 1)).map (fun p => p idx.1))
    let ys := ((everyNth step xyz.dropLast).map (fun p => p idx.2.1)).zip
      ((everyNth step (xyz.drop 1)).map (fun p => p idx.2.1))
    if plot_mode = PlotMode.xyz then
      -- z_idx is some 2 exactly when plot_mode is xyz, so getD never
      -- falls back to its default here.
      let zi := idx.2.2.getD 2
      let zs := ((everyNth step xyz.dropLast).map (fun p => p zi)).zip
        ((everyNth step (xyz.drop 1)).map (fun p => p zi))
      let segs_3d := ((xs.zip ys).zip zs).map
        (fun t => ((t.1.1.1, t.1.2.1, t.2.1), (t.1.1.2, t.1.2.2, t.2.2)))
      .ok (.seg3d segs_3d colors linestyles alpha)
    else
      let segs_2d := (xs.zip ys).map
        (fun t => ((t.1.1, t.2.1), (t.1.2, t.2.2)))
      .ok (.seg2d segs_2d colors linestyles alpha)

/-- Flattens an n by 2 array of point pairs into a flat list of 2n points,
as the reshape in plot.py line 533 and the interleaved slice assignment in
plot.py lines 561 to 563 produce. -/
def flattenPairs {α : Type} : List (α × α) → List α
  | [] => []
  | p :: rest => p.1 :: p.2 :: flattenPairs rest

/-- A rigid 4 by 4 pose matrix, one entry of poses_se3. -/
abbrev Pose := Fin 4 → Fin 4 → ℚ

/-- p.dot(v) for a 4 by 4 pose and a homogeneous 4-vector. -/
def mulVec4 (p : Pose) (v : Fin 4 → ℚ) : Fin 4 → ℚ :=
  fun i => p i 0 * v 0 + p i 1 * v 1 + p i 2 * v 2 + p i 3 * v 3

/-- p[:3, 3], the translation column of a pose. -/
def pose_translation (p : Pose) : Pt3 := fun i => p i.castSucc 3

/-- p.dot(v)[:3], the transformed homogeneous vector with the last
component cut off. -/
def dotHead3 (p : Pose) (v : Fin 4 → ℚ) : Pt3 :=
  fun i => mulVec4 p v i.castSucc

/-- draw_coordinate_axes, plot.py lines 503 to 539. The produced line
collection is returned as some value instead of being attached to an
axis, and the early return for a non-positive marker scale yields none. -/
def draw_coordinate_axes (poses : List Pose) (plot_mode : PlotMode)
    (marker_scale : ℚ) (x_color y_color z_color : String) :
    Except PlotException (Option LineColl) :=
  if marker_scale ≤ 0 then .ok none
  else
    let unit_x : Fin 4 → ℚ := ![1 * marker_scale, 0, 0, 1]
    let unit_y : Fin 4 → ℚ := ![0, 1 * marker_scale, 0, 1]
    let unit_z : Fin 4 → ℚ := ![0, 0, 1 * marker_scale, 1]
    let x_vertices := poses.map (fun p => (pose_translation p, dotHead3 p unit_x))
    let y_vertices := poses.map (fun p => (pose_translation p, dotHead3 p unit_y))
    let z_vertices := poses.map (fun p => (pose_translation p, dotHead3 p unit_z))
    let n := poses.length
    -- np.concatenate((x_vertices, y_vertices, z_vertices)) followed by
    -- reshape((n * 2 * 3, 3)) flattens the pair blocks in order.
    let vertices := flattenPairs (x_vertices ++ y_vertices ++ z_vertices)
    let colors := List.replicate n x_color ++ List.replicate n y_color ++
      List.replicate n z_color
    match colored_line_collection vertices colors plot_mode "solid" 2 1 with
    | .error e => .error e
    | .ok coll => .ok (some coll)

/-- draw_correspondence_edges, plot.py lines 542 to 570. The line
collection is returned instead of being attached to an axis. The
interleaved slice assignment of plot.py lines 561 to 563 equals
flattening the pairwise zip, because both trajectories have the same
length past the guard. -/
def draw_correspondence_edges (traj_1 traj_2 : List Pt3)
    (plot_mode : PlotMode) (style : String) (color : String) (alpha : ℚ) :
    Except PlotException LineColl :=
  if ¬ (traj_1.length = traj_2.length) then
    .error .trajectoryLengthMismatch
  else
    let n := traj_1.length
    let interweaved_positions := flattenPairs (traj_1.zip traj_2)
    -- plot.py line 564 reassigns the color parameter unconditionally.
    let color := "red"
    let colors := List.replicate n color
    colored_line_collection interweaved_positions colors plot_mode style 2 alpha

/-- A matplotlib Bbox given by the two corner points [[x0, y0], [x1, y1]]. -/
structure BboxQ where
  x0 : ℚ
  y0 : ℚ
  x1 : ℚ
  y1 : ℚ
deriving DecidableEq

/-- Bbox.union of two boxes: componentwise minimum of the lower corners
and maximum of the upper corners. -/
def BboxQ.union (a b : BboxQ) : BboxQ :=
  ⟨min a.x0 b.x0, min a.y0 b.y0, max a.x1 b.x1, max a.y1 b.y1⟩

/-- Viewport reconciliation of ros_map, plot.py lines 896 to 908: the new
value of ax.dataLim given the prior data limits and the transformed map
bounding box. -/
def ros_map_viewport_bounds (viewport : Viewport)
    (original_bbox bbox : BboxQ) : BboxQ :=
  match viewport with
  | .update => BboxQ.union original_bbox bbox
  | .zoom_to_map => bbox
  | .keep_unchanged => original_bbox

/-- Metric extent of the map raster, plot.py lines 874 to 877: the pair
of metric_width and metric_height for an image of the given shape. -/
def ros_map_metric_extent (image_shape : List Nat) (resolution : ℚ)
    (plot_mode : PlotMode) : ℚ × ℚ :=
  let idx := plot_mode_to_idx plot_mode
  let n_rows := image_shape.getD (idx.1 : Nat) 0
  let n_cols := image_shape.getD (idx.2.1 : Nat) 0
  ((n_cols : ℚ) * resolution, (n_rows : ℚ) * resolution)

/-- A rotation of the plane by an angle, as Affine2D.rotate appends it. -/
noncomputable def rotate2 (angle : ℝ) (p : ℝ × ℝ) : ℝ × ℝ :=
  (Real.cos angle * p.1 - Real.sin angle * p.2,
   Real.sin angle * p.1 + Real.cos angle * p.2)

/-- The map_to_pixel_origin transform of ros_map, plot.py lines 886 to
893. Affine2D mutators append their operation, so translate followed by
rotate applies the translation first and the rotation second; for the yx
mode the angle sign is flipped. -/
noncomputable def ros_map_transform (origin : Fin 3 → ℝ)
    (plot_mode : PlotMode) (p : ℝ × ℝ) : ℝ × ℝ :=
  let idx := plot_mode_to_idx plot_mode
  let angle0 := origin 2
  let angle := if plot_mode = PlotMode.yx then -angle0 else angle0
  rotate2 angle (p.1 + origin idx.1, p.2 + origin idx.2.1)

/-- An unpickled Python value: either the expected ordered mapping from
figure names to figures (figure handles kept opaque), or a value of some
other shape. -/
inductive PyValue where
  | figuresDict (figures : List (String × Nat))
  | pyInt (n : Int)
deriving DecidableEq

/-- The state set up by the constructor of PlotCollection, plot.py
lines 113 to 124. -/
structure PlotCollection where
  title : String
  figures : PyValue
  root_window : Option Nat
deriving DecidableEq

/-- " ".join(title.splitlines()), with newline as the line separator. -/
def one_line_title (title : String) : String :=
  " ".intercalate (title.splitOn "\n")

/-- PlotCollection.__init__, plot.py lines 114 to 124. pickle.load on the
opened path is the external collaborator, abstracted as the pickle_load
argument; plot.py line 124 assigns its result to self.figures without any
shape validation. -/
def PlotCollection.init (pickle_load : String → Except String PyValue)
    (title : String) (deserialize : Option String) :
    Except String PlotCollection :=
  let t := one_line_title title
  match deserialize with
  | none => .ok { title := t, figures := .figuresDict [], root_window := none }
  | some path =>
      match pickle_load path with
      | .error e => .error e
      | .ok v => .ok { title := t, figures := v, root_window := none }

/-- Projection of a pair of segment endpoints onto the two plot axes of a
2D plot mode, as performed coordinatewise inside colored_line_collection. -/
def projPair2 (plot_mode : PlotMode) (ab : Pt3 × Pt3) :
    (ℚ × ℚ) × (ℚ × ℚ) :=
  let idx := plot_mode_to_idx plot_mode
  ((ab.1 idx.1, ab.1 idx.2.1), (ab.2 idx.1, ab.2 idx.2.1))

/-- Projection of a pair of segment endpoints onto the three axes of the
xyz plot mode. -/
def projPair3 (plot_mode : PlotMode) (ab : Pt3 × Pt3) :
    (ℚ × ℚ × ℚ) × (ℚ × ℚ × ℚ) :=
  let idx := plot_mode_to_idx plot_mode
  let zi := idx.2.2.getD 2
  ((ab.1 idx.1, ab.1 idx.2.1, ab.1 zi), (ab.2 idx.1, ab.2 idx.2.1, ab.2 zi))

/-! Helper lemmas about slicing and segment pairing. -/

theorem getD_drop {α : Type} (l : List α) :
    ∀ (n i : Nat) (d : α), (l.drop n).getD i d = l.getD (n + i) d := by
  induction l with
  | nil => intro n i d; simp
  | cons a rest ih =>
      intro n i d
      cases n with
      | zero => simp
      | succ m => simpa [Nat.succ_add] using ih m i d

theorem dropLast_getD {α : Type} :
    ∀ (l : List α) (j : Nat) (d : α), j < l.length - 1 →
      l.dropLast.getD j d = l.getD j d := by
  intro l
  induction l with
  | nil => intro j d hj; simp at hj
  | cons a rest ih =>
      intro j d hj
      cases rest with
      | nil => simp at hj
      | cons b rest2 =>
          cases j with
          | zero => simp [List.dropLast]
          | succ m =>
              have hm : m < (b :: rest2).length - 1 := by
                simp at hj ⊢; omega
              simpa [List.dropLast] using ih m d hm

theorem zip_getD {α β : Type} :
    ∀ (A : List α) (B : List β) (i : Nat) (dA : α) (dB : β),
      i < A.length → i < B.length →
      (A.zip B).getD i (dA, dB) = (A.getD i dA, B.getD i dB) := by
  intro A
  induction A with
  | nil => intro B i dA dB hA; simp at hA
  | cons a A2 ih =>
      intro B i dA dB hA hB
      cases B with
      | nil => simp at hB
      | cons b B2 =>
          cases i with
          | zero => simp
          | succ m =>
              have h1 : m < A2.length := by simpa using hA
              have h2 : m < B2.length := by simpa using hB
              simpa using ih B2 m dA dB h1 h2

theorem everyNthAux_getD {α : Type} (s : Nat) (hs : 1 ≤ s) :
    ∀ (l : List α) (k i : Nat) (d : α),
      i < (everyNthAux s k l).length →
      (everyNthAux s k l).getD i d = l.getD (k + i * s) d := by
  intro l
  induction l with
  | nil => intro k i d hi; simp [everyNthAux] at hi
  | cons a rest ih =>
      intro k i d hi
      cases k with
      | zero =>
          cases i with
          | zero => simp [everyNthAux]
          | succ j =>
              have hj : j < (everyNthAux s (s - 1) rest).length := by
                simpa [everyNthAux] using hi
              have hidx : (j + 1) * s = ((s - 1) + j * s) + 1 := by
                cases s with
                | zero => omega
                | succ t =>
                    have h1 : (j + 1) * (t + 1) = j * (t + 1) + (t + 1) := by
                      ring
                    have h2 : (t + 1) - 1 = t := by omega
                    rw [h1, h2]
                    omega
              rw [Nat.zero_add, hidx]
              simpa [everyNthAux] using ih (s - 1) j d hj
      | succ m =>
          have hi2 : i < (everyNthAux s m rest).length := by
            simpa [everyNthAux] using hi
          have : (m + 1) + i * s = (m + i * s) + 1 := by omega
          rw [this]
          simpa [everyNthAux] using ih m i d hi2

theorem everyNthAux_index_lt {α : Type} (s : Nat) (hs : 1 ≤ s) :
    ∀ (l : List α) (k i : Nat),
      i < (everyNthAux s k l).length → k + i * s < l.length := by
  intro l
  induction l with
  | nil => intro k i hi; simp [everyNthAux] at hi
  | cons a rest ih =>
      intro k i hi
      cases k with
      | zero =>
          cases i with
          | zero => simp
          | succ j =>
              have hj : j < (everyNthAux s (s - 1) rest).length := by
                simpa [everyNthAux] using hi
              have h1 : (s - 1) + j * s < rest.length := ih (s - 1) j hj
              have h2 : (j + 1) * s = j * s + s := by ring
              simp only [List.length_cons]
              omega
      | succ m =>
          have hi2 : i < (everyNthAux s m rest).length := by
            simpa [everyNthAux] using hi
          have := ih m i hi2
          simp only [List.length_cons]
          omega

theorem everyNthAux_length {α : Type} (s : Nat) (hs : 1 ≤ s) :
    ∀ (l : List α) (k : Nat),
      (everyNthAux s k l).length = (l.length - k + s - 1) / s := by
  intro l
  induction l with
  | nil =>
      intro k
      have h0 : (s - 1) / s = 0 := Nat.div_eq_of_lt (by omega)
      simp [everyNthAux, h0]
  | cons a rest ih =>
      intro k
      cases k with
      | zero =>
          have step1 : (everyNthAux s 0 (a :: rest)).length =
              1 + (rest.length - (s - 1) + s - 1) / s := by
            simp [everyNthAux, ih (s - 1), Nat.add_comm]
          have step2 : (rest.length - (s - 1) + s - 1) / s = rest.length / s := by
            rcases le_or_lt (s - 1) rest.length with h | h
            · have : rest.length - (s - 1) + s - 1 = rest.length := by omega
              rw [this]
            · have h1 : rest.length - (s - 1) = 0 := by omega
              have h2 : rest.length / s = 0 := Nat.div_eq_of_lt (by omega)
              rw [h1, h2]
              exact Nat.div_eq_of_lt (by omega)
          have step3 : ((a :: rest).length - 0 + s - 1) / s = rest.length / s + 1 := by
            have h1 : (a :: rest).length - 0 + s - 1 = rest.length + s := by
              simp only [List.length_cons]
              omega
            rw [h1]
            exact Nat.add_div_right rest.length (by omega)
          rw [step1, step2, step3]
          omega
      | succ m =>
          have h1 : (everyNthAux s (m + 1) (a :: rest)).length =
              (rest.length - m + s - 1) / s := by
            simpa [everyNthAux] using ih m
          have h2 : (a :: rest).length - (m + 1) = rest.length - m := by
            simp
          rw [h1, h2]

theorem everyNth_length {α : Type} (s : Nat) (hs : 1 ≤ s) (l : List α) :
    (everyNth s l).length = (l.length + s - 1) / s := by
  have := everyNthAux_length s hs l 0
  simpa [everyNth] using this

theorem everyNth_getD {α : Type} (s : Nat) (hs : 1 ≤ s) (l : List α)
    (i : Nat) (d : α) (hi : i < (everyNth s l).length) :
    (everyNth s l).getD i d = l.getD (i * s) d := by
  have := everyNthAux_getD s hs l 0 i d (by simpa [everyNth] using hi)
  simpa [everyNth] using this

theorem everyNth_index_lt {α : Type} (s : Nat) (hs : 1 ≤ s) (l : List α)
    (i : Nat) (hi : i < (everyNth s l).length) : i * s < l.length := by
  have := everyNthAux_index_lt s hs l 0 i (by simpa [everyNth] using hi)
  simpa using this

theorem everyNth_one {α : Type} : ∀ (l : List α), everyNth 1 l = l := by
  intro l
  induction l with
  | nil => rfl
  | cons a rest ih => simpa [everyNth, everyNthAux] using ih

theorem flattenPairs_length {α : Type} :
    ∀ (L : List (α × α)), (flattenPairs L).length = 2 * L.length := by
  intro L
  induction L with
  | nil => rfl
  | cons p rest ih => simp [flattenPairs, ih]; omega

theorem flattenPairs_ne_nil {α : Type} (p : α × α) (rest : List (α × α)) :
    flattenPairs (p :: rest) ≠ [] := by
  simp [flattenPairs]

theorem segEndpoints_flattenPairs {α : Type} :
    ∀ (L : List (α × α)), segEndpoints (flattenPairs L) 2 = L := by
  intro L
  induction L with
  | nil => rfl
  | cons p rest ih =>
      cases rest with
      | nil => simp [flattenPairs, segEndpoints, everyNth, everyNthAux]
      | cons q rest2 =>
          have hexp : flattenPairs (p :: q :: rest2) =
              p.1 :: p.2 :: flattenPairs (q :: rest2) := rfl
          have hnil : flattenPairs (q :: rest2) = q.1 :: q.2 :: flattenPairs rest2 := rfl
          rw [hexp, hnil]
          have hdl : (p.1 :: p.2 :: q.1 :: q.2 :: flattenPairs rest2).dropLast =
              p.1 :: p.2 :: (q.1 :: q.2 :: flattenPairs rest2).dropLast := by
            simp [List.dropLast]
          have h1 : everyNth 2 (p.1 :: p.2 :: q.1 :: q.2 :: flattenPairs rest2).dropLast =
              p.1 :: everyNth 2 (q.1 :: q.2 :: flattenPairs rest2).dropLast := by
            rw [hdl]
            simp [everyNth, everyNthAux]
          have h2 : everyNth 2 ((p.1 :: p.2 :: q.1 :: q.2 :: flattenPairs rest2).drop 1) =
              p.2 :: everyNth 2 ((q.1 :: q.2 :: flattenPairs rest2).drop 1) := by
            simp [everyNth, everyNthAux]
          simp only [segEndpoints] at ih ⊢
          rw [h1, h2, ← hnil]
          rw [List.zip_cons_cons, ih]

theorem zip_proj_eq {α : Type} (A B : List α) (f g : α → ℚ) :
    (((A.map f).zip (B.map f)).zip ((A.map g).zip (B.map g))).map
      (fun t => ((t.1.1, t.2.1), (t.1.2, t.2.2))) =
    (A.zip B).map (fun ab => ((f ab.1, g ab.1), (f ab.2, g ab.2))) := by
  rw [List.zip_map f f A B, List.zip_map g g A B, List.zip_map']
  rw [List.map_map]
  congr 1

theorem zip_proj3_eq {α : Type} (A B : List α) (f g h : α → ℚ) :
    ((((A.map f).zip (B.map f)).zip ((A.map g).zip (B.map g))).zip
        ((A.map h).zip (B.map h))).map
      (fun t => ((t.1.1.1, t.1.2.1, t.2.1), (t.1.1.2, t.1.2.2, t.2.2))) =
    (A.zip B).map
      (fun ab => ((f ab.1, g ab.1, h ab.1), (f ab.2, g ab.2, h ab.2))) := by
  rw [List.zip_map f f A B, List.zip_map g g A B, List.zip_map h h A B,
    List.zip_map', List.zip_map']
  rw [List.map_map]
  congr 1

theorem clc_check_fail (xyz : List Pt3) (colors : List String)
    (mode : PlotMode) (style : String) (step : Nat) (alpha : ℚ)
    (h : step > 1 ∧ (xyz.length : ℚ) / (step : ℚ) ≠ (colors.length : ℚ)) :
    colored_line_collection xyz colors mode style step alpha =
      .error (.colorLengthMismatch ((xyz.length : ℚ) / (step : ℚ))
        colors.length) := by
  unfold colored_line_collection
  rw [if_pos h]

theorem clc_ok_2d (xyz : List Pt3) (colors : List String) (mode : PlotMode)
    (style : String) (step : Nat) (alpha : ℚ)
    (hchk : ¬ (step > 1 ∧ (xyz.length : ℚ) / (step : ℚ) ≠ (colors.length : ℚ)))
    (hm : mode ≠ PlotMode.xyz) :
    colored_line_collection xyz colors mode style step alpha =
      .ok (.seg2d ((segEndpoints xyz step).map (projPair2 mode))
        colors style alpha) := by
  unfold colored_line_collection
  rw [if_neg hchk]
  simp only [if_neg hm]
  rw [zip_proj_eq]
  have hfun : (fun ab : Pt3 × Pt3 =>
      ((ab.1 (plot_mode_to_idx mode).1, ab.1 (plot_mode_to_idx mode).2.1),
        (ab.2 (plot_mode_to_idx mode).1, ab.2 (plot_mode_to_idx mode).2.1))) =
      projPair2 mode := by
    funext ab
    simp [projPair2]
  rw [hfun]
  simp only [segEndpoints]

theorem clc_ok_3d (xyz : List Pt3) (colors : List String)
    (style : String) (step : Nat) (alpha : ℚ)
    (hchk : ¬ (step > 1 ∧ (xyz.length : ℚ) / (step : ℚ) ≠ (colors.length : ℚ))) :
    colored_line_collection xyz colors PlotMode.xyz style step alpha =
      .ok (.seg3d ((segEndpoints xyz step).map (projPair3 PlotMode.xyz))
        colors style alpha) := by
  unfold colored_line_collection
  rw [if_neg hchk]
  simp only [if_pos rfl, ite_true]
  rw [zip_proj3_eq]
  have hfun : (fun ab : Pt3 × Pt3 =>
      ((ab.1 (plot_mode_to_idx PlotMode.xyz).1,
        ab.1 (plot_mode_to_idx PlotMode.xyz).2.1,
        ab.1 ((plot_mode_to_idx PlotMode.xyz).2.2.getD 2)),
        (ab.2 (plot_mode_to_idx PlotMode.xyz).1,
        ab.2 (plot_mode_to_idx PlotMode.xyz).2.1,
        ab.2 ((plot_mode_to_idx PlotMode.xyz).2.2.getD 2)))) =
      projPair3 PlotMode.xyz := by
    funext ab
    simp [projPair3]
  rw [hfun]
  simp only [segEndpoints]

/-! Claim theorems. -/

/-- C6: for all seven PlotMode values, plot_mode_to_idx returns exactly
the projection table of the specification, and xyz is the only mode
yielding a non-null z index. -/
theorem plot_mode_to_idx_table :
    plot_mode_to_idx PlotMode.xy = (0, 1, none) ∧
    plot_mode_to_idx PlotMode.xz = (0, 2, none) ∧
    plot_mode_to_idx PlotMode.yx = (1, 0, none) ∧
    plot_mode_to_idx PlotMode.yz = (1, 2, none) ∧
    plot_mode_to_idx PlotMode.zx = (2, 0, none) ∧
    plot_mode_to_idx PlotMode.zy = (2, 1, none) ∧
    plot_mode_to_idx PlotMode.xyz = (0, 1, some 2) ∧
    ∀ m : PlotMode,
      ((plot_mode_to_idx m).2.2).isSome = decide (m = PlotMode.xyz) := by
  refine ⟨rfl, rfl, rfl, rfl, rfl, rfl, rfl, ?_⟩
  intro m
  cases m <;> rfl

/-- C3: ros_map viewport reconciliation sets the new data bounds to the
union of prior and map bounds for update, to the map bounds for
zoom_to_map, and back to the prior bounds for keep_unchanged; with prior
bounds [(0,0),(3,3)] and map bounds [(1,1),(6,11)] the three policies
yield [(1,1),(6,11)], [(0,0),(3,3)] and [(0,0),(6,11)] respectively. -/
theorem ros_map_viewport_reconciliation :
    (∀ prior bbox : BboxQ,
      ros_map_viewport_bounds Viewport.update prior bbox =
        BboxQ.union prior bbox ∧
      ros_map_viewport_bounds Viewport.zoom_to_map prior bbox = bbox ∧
      ros_map_viewport_bounds Viewport.keep_unchanged prior bbox = prior) ∧
    ros_map_viewport_bounds Viewport.zoom_to_map ⟨0, 0, 3, 3⟩ ⟨1, 1, 6, 11⟩ =
      ⟨1, 1, 6, 11⟩ ∧
    ros_map_viewport_bounds Viewport.keep_unchanged ⟨0, 0, 3, 3⟩ ⟨1, 1, 6, 11⟩ =
      ⟨0, 0, 3, 3⟩ ∧
    ros_map_viewport_bounds Viewport.update ⟨0, 0, 3, 3⟩ ⟨1, 1, 6, 11⟩ =
      ⟨0, 0, 6, 11⟩ := by
  refine ⟨fun prior bbox => ⟨rfl, rfl, rfl⟩, ?_, ?_, ?_⟩ <;> decide

/-- C4: the metric footprint of a map is the pixel count along each axis
times the resolution, and the placement transform translates by the
origin x and y and then rotates by the origin yaw; for resolution 0.05,
a 200 by 100 image shape and origin (1, 2, 0) in mode xy, the footprint
is width 5 and height 10 and image point (0,0) maps to world (1, 2). -/
theorem ros_map_georegistration :
    (∀ (image_shape : List Nat) (resolution : ℚ),
      ros_map_metric_extent image_shape resolution PlotMode.xy =
        ((image_shape.getD 1 0 : ℚ) * resolution,
         (image_shape.getD 0 0 : ℚ) * resolution)) ∧
    ros_map_metric_extent [200, 100] (1 / 20) PlotMode.xy = (5, 10) ∧
    (∀ (origin : Fin 3 → ℝ) (p : ℝ × ℝ),
      ros_map_transform origin PlotMode.xy p =
        rotate2 (origin 2) (p.1 + origin 0, p.2 + origin 1)) ∧
    ros_map_transform ![1, 2, 0] PlotMode.xy (0, 0) = (1, 2) := by
  refine ⟨fun shape res => rfl, ?_, fun origin p => rfl, ?_⟩
  · have h : plot_mode_to_idx PlotMode.xy = (0, 1, none) := rfl
    simp only [ros_map_metric_extent, h]
    norm_num
  show rotate2 ((![1, 2, 0] : Fin 3 → ℝ) 2)
    ((0 : ℝ) + (![1, 2, 0] : Fin 3 → ℝ) 0, (0 : ℝ) + (![1, 2, 0] : Fin 3 → ℝ) 1) =
    ((1 : ℝ), (2 : ℝ))
  norm_num [rotate2, Matrix.cons_val_zero, Matrix.cons_val_one, Matrix.head_cons]

theorem clc_flattenPairs_step2_ok_2d (L : List (Pt3 × Pt3))
    (colors : List String) (mode : PlotMode) (style : String) (alpha : ℚ)
    (hm : mode ≠ PlotMode.xyz) (hcol : colors.length = L.length) :
    colored_line_collection (flattenPairs L) colors mode style 2 alpha =
      .ok (.seg2d (L.map (projPair2 mode)) colors style alpha) := by
  have hchk : ¬ (2 > 1 ∧
      ((flattenPairs L).length : ℚ) / (2 : ℚ) ≠ (colors.length : ℚ)) := by
    rintro ⟨-, hne⟩
    apply hne
    rw [flattenPairs_length, hcol]
    push_cast
    ring
  rw [clc_ok_2d _ _ _ _ _ _ hchk hm, segEndpoints_flattenPairs]

theorem clc_flattenPairs_step2_ok_3d (L : List (Pt3 × Pt3))
    (colors : List String) (style : String) (alpha : ℚ)
    (hcol : colors.length = L.length) :
    colored_line_collection (flattenPairs L) colors PlotMode.xyz style 2 alpha =
      .ok (.seg3d (L.map (projPair3 PlotMode.xyz)) colors style alpha) := by
  have hchk : ¬ (2 > 1 ∧
      ((flattenPairs L).length : ℚ) / (2 : ℚ) ≠ (colors.length : ℚ)) := by
    rintro ⟨-, hne⟩
    apply hne
    rw [flattenPairs_length, hcol]
    push_cast
    ring
  rw [clc_ok_3d _ _ _ _ _ hchk, segEndpoints_flattenPairs]

theorem clc_colors_of_ok (xyz : List Pt3) (colors : List String)
    (mode : PlotMode) (style : String) (step : Nat) (alpha : ℚ)
    (coll : LineColl)
    (h : colored_line_collection xyz colors mode style step alpha = .ok coll) :
    coll.colors = colors := by
  by_cases hchk : (step > 1 ∧
      (xyz.length : ℚ) / (step : ℚ) ≠ (colors.length : ℚ))
  · rw [clc_check_fail xyz colors mode style step alpha hchk] at h
    cases h
  · by_cases hm : mode = PlotMode.xyz
    · subst hm
      rw [clc_ok_3d xyz colors style step alpha hchk] at h
      injection h with h2
      rw [← h2]
      rfl
    · rw [clc_ok_2d xyz colors mode style step alpha hchk hm] at h
      injection h with h2
      rw [← h2]
      rfl

/-- C2: colored_line_collection builds segments by striding the point
sequence with offsets 0 and 1, so segment i connects points[i*step] to
points[i*step+1]; with step 1 this yields exactly N-1 segments, and for
11 points with step 2 exactly 5 segments; a successful 2D call returns
exactly these pairs projected onto the plot axes. -/
theorem colored_line_collection_striding :
    (∀ (xyz : List Pt3) (step : Nat), 1 ≤ step →
      ∀ (i : Nat) (d1 d2 : Pt3), i < (segEndpoints xyz step).length →
        (segEndpoints xyz step).getD i (d1, d2) =
          (xyz.getD (i * step) d1, xyz.getD (i * step + 1) d2)) ∧
    (∀ xyz : List Pt3, (segEndpoints xyz 1).length = xyz.length - 1) ∧
    (∀ xyz : List Pt3, xyz.length = 11 → (segEndpoints xyz 2).length = 5) ∧
    (∀ (xyz : List Pt3) (colors : List String) (style : String) (step : Nat)
      (alpha : ℚ) (coll : LineColl),
      colored_line_collection xyz colors PlotMode.xy style step alpha =
        .ok coll →
      coll = .seg2d ((segEndpoints xyz step).map (projPair2 PlotMode.xy))
        colors style alpha ∧
      coll.nSegments = (segEndpoints xyz step).length) := by
  refine ⟨?_, ?_, ?_, ?_⟩
  · intro xyz step hs i d1 d2 hi
    have hlen := List.length_zip (everyNth step xyz.dropLast)
      (everyNth step (xyz.drop 1))
    have hA : i < (everyNth step xyz.dropLast).length := by
      simp only [segEndpoints] at hi
      omega
    have hB : i < (everyNth step (xyz.drop 1)).length := by
      simp only [segEndpoints] at hi
      omega
    simp only [segEndpoints]
    rw [zip_getD _ _ i d1 d2 hA hB]
    have h1 : (everyNth step xyz.dropLast).getD i d1 =
        xyz.dropLast.getD (i * step) d1 :=
      everyNth_getD step hs xyz.dropLast i d1 hA
    have hbound : i * step < xyz.dropLast.length :=
      everyNth_index_lt step hs xyz.dropLast i hA
    have h1b : xyz.dropLast.getD (i * step) d1 = xyz.getD (i * step) d1 := by
      apply dropLast_getD
      simpa using hbound
    have h2 : (everyNth step (xyz.drop 1)).getD i d2 =
        (xyz.drop 1).getD (i * step) d2 :=
      everyNth_getD step hs (xyz.drop 1) i d2 hB
    have h2b : (xyz.drop 1).getD (i * step) d2 = xyz.getD (i * step + 1) d2 := by
      rw [getD_drop]
      congr 1
      omega
    rw [h1, h1b, h2, h2b]
  · intro xyz
    simp [segEndpoints, everyNth_one]
  · intro xyz h11
    have hs2 : (1 : Nat) ≤ 2 := by omega
    simp [segEndpoints, List.length_zip, everyNth_length 2 hs2,
      List.length_dropLast, List.length_drop, h11]
  · intro xyz colors style step alpha coll h
    by_cases hchk : (step > 1 ∧
        (xyz.length : ℚ) / (step : ℚ) ≠ (colors.length : ℚ))
    · rw [clc_check_fail xyz colors PlotMode.xy style step alpha hchk] at h
      cases h
    · rw [clc_ok_2d xyz colors PlotMode.xy style step alpha hchk
        (by decide)] at h
      injection h with h2
      refine ⟨h2.symm, ?_⟩
      rw [← h2]
      simp [LineColl.nSegments]

/-- Witness for C2 at eleven concrete points: segment 3 with step 2
connects points 6 and 7, step 1 yields 10 segments, step 2 yields 5, and
a successful step 1 call on two points returns the projected pair list. -/
theorem colored_line_collection_striding_witness :
    ((segEndpoints (List.replicate 11 (fun _ => (0 : ℚ)) : List Pt3) 2).getD 3
        ((fun _ => (0 : ℚ)), (fun _ => (0 : ℚ))) =
      ((List.replicate 11 (fun _ => (0 : ℚ)) : List Pt3).getD (3 * 2)
          (fun _ => (0 : ℚ)),
       (List.replicate 11 (fun _ => (0 : ℚ)) : List Pt3).getD (3 * 2 + 1)
          (fun _ => (0 : ℚ)))) ∧
    (segEndpoints (List.replicate 11 (fun _ => (0 : ℚ)) : List Pt3) 1).length = 10 ∧
    (segEndpoints (List.replicate 11 (fun _ => (0 : ℚ)) : List Pt3) 2).length = 5 ∧
    ((LineColl.seg2d
        ((segEndpoints (List.replicate 2 (fun _ => (0 : ℚ)) : List Pt3) 1).map
          (projPair2 PlotMode.xy)) ["red"] "solid" 1) =
      .seg2d
        ((segEndpoints (List.replicate 2 (fun _ => (0 : ℚ)) : List Pt3) 1).map
          (projPair2 PlotMode.xy)) ["red"] "solid" 1 ∧
      (LineColl.seg2d
        ((segEndpoints (List.replicate 2 (fun _ => (0 : ℚ)) : List Pt3) 1).map
          (projPair2 PlotMode.xy)) ["red"] "solid" 1).nSegments =
        (segEndpoints (List.replicate 2 (fun _ => (0 : ℚ)) : List Pt3) 1).length) := by
  have h1 := colored_line_collection_striding.1
    (List.replicate 11 (fun _ => (0 : ℚ)) : List Pt3) 2 (by omega) 3
    (fun _ => (0 : ℚ)) (fun _ => (0 : ℚ)) (by decide)
  have h2 := colored_line_collection_striding.2.1
    (List.replicate 11 (fun _ => (0 : ℚ)) : List Pt3)
  have h3 := colored_line_collection_striding.2.2.1
    (List.replicate 11 (fun _ => (0 : ℚ)) : List Pt3) (by simp)
  have hok : colored_line_collection
      (List.replicate 2 (fun _ => (0 : ℚ)) : List Pt3) ["red"]
      PlotMode.xy "solid" 1 1 =
      .ok (.seg2d
        ((segEndpoints (List.replicate 2 (fun _ => (0 : ℚ)) : List Pt3) 1).map
          (projPair2 PlotMode.xy)) ["red"] "solid" 1) :=
    clc_ok_2d _ _ _ _ _ _ (by rintro ⟨hc, -⟩; omega) (by decide)
  have h4 := colored_line_collection_striding.2.2.2
    (List.replicate 2 (fun _ => (0 : ℚ)) : List Pt3) ["red"] "solid" 1 1 _ hok
  exact ⟨h1, by simpa using h2, h3, h4⟩

/-- C9: with step 1, colored_line_collection performs no color-count
validation and never raises, for any color sequence; with step greater
than 1 it raises a length mismatch exactly when len(points)/step, taken
by exact division, differs from the color count, and the error names
that ratio and the color count. -/
theorem colored_line_collection_step_one_unchecked :
    (∀ (xyz : List Pt3) (colors : List String) (mode : PlotMode)
      (style : String) (alpha : ℚ),
      ∃ coll, colored_line_collection xyz colors mode style 1 alpha =
        .ok coll) ∧
    (∀ (xyz : List Pt3) (colors : List String) (mode : PlotMode)
      (style : String) (alpha : ℚ) (step : Nat), 1 < step →
      ((xyz.length : ℚ) / (step : ℚ) ≠ (colors.length : ℚ) →
        colored_line_collection xyz colors mode style step alpha =
          .error (.colorLengthMismatch ((xyz.length : ℚ) / (step : ℚ))
            colors.length)) ∧
      ((xyz.length : ℚ) / (step : ℚ) = (colors.length : ℚ) →
        ∃ coll, colored_line_collection xyz colors mode style step alpha =
          .ok coll)) := by
  constructor
  · intro xyz colors mode style alpha
    have hchk : ¬ ((1 : Nat) > 1 ∧
        (xyz.length : ℚ) / ((1 : Nat) : ℚ) ≠ (colors.length : ℚ)) := by
      rintro ⟨hc, -⟩
      omega
    by_cases hm : mode = PlotMode.xyz
    · subst hm
      exact ⟨_, clc_ok_3d xyz colors style 1 alpha hchk⟩
    · exact ⟨_, clc_ok_2d xyz colors mode style 1 alpha hchk hm⟩
  · intro xyz colors mode style alpha step hstep
    constructor
    · intro hne
      exact clc_check_fail xyz colors mode style step alpha ⟨hstep, hne⟩
    · intro heq
      have hchk : ¬ (step > 1 ∧
          (xyz.length : ℚ) / (step : ℚ) ≠ (colors.length : ℚ)) := by
        rintro ⟨-, hne⟩
        exact hne heq
      by_cases hm : mode = PlotMode.xyz
      · subst hm
        exact ⟨_, clc_ok_3d xyz colors style step alpha hchk⟩
      · exact ⟨_, clc_ok_2d xyz colors mode style step alpha hchk hm⟩

/-- Witness for C9: a step 1 call with 3 points and 1 color succeeds, and
a step 2 call with 3 points and 1 color raises the mismatch error since
3/2 differs from 1. -/
theorem colored_line_collection_step_one_unchecked_witness :
    (∃ coll, colored_line_collection
      (List.replicate 3 (fun _ => (0 : ℚ)) : List Pt3) ["red"]
      PlotMode.xy "solid" 1 1 = .ok coll) ∧
    colored_line_collection
      (List.replicate 3 (fun _ => (0 : ℚ)) : List Pt3) ["red"]
      PlotMode.xy "solid" 2 1 =
      .error (.colorLengthMismatch
        (((List.replicate 3 (fun _ => (0 : ℚ)) : List Pt3).length : ℚ) /
          ((2 : Nat) : ℚ))
        (["red"] : List String).length) := by
  constructor
  · exact colored_line_collection_step_one_unchecked.1
      (List.replicate 3 (fun _ => (0 : ℚ)) : List Pt3) ["red"]
      PlotMode.xy "solid" 1
  · refine (colored_line_collection_step_one_unchecked.2
      (List.replicate 3 (fun _ => (0 : ℚ)) : List Pt3) ["red"]
      PlotMode.xy "solid" 1 2 (by omega)).1 ?_
    simp
    norm_num

/-- C1 (amended): for every 11-point sequence with step 2, the color
count validation compares len(points)/step in exact arithmetic, which is
11/2 and matches no integer, so every color count, including both 4 and
5, raises a length-mismatch error naming that ratio and the color count;
the produced segment count is never consulted. -/
theorem colored_line_collection_eleven_points_mismatch :
    ∀ (xyz : List Pt3) (colors : List String) (style : String) (alpha : ℚ),
      xyz.length = 11 →
      colored_line_collection xyz colors PlotMode.xy style 2 alpha =
        .error (.colorLengthMismatch ((11 : ℚ) / 2) colors.length) := by
  intro xyz colors style alpha h11
  have hratio : (xyz.length : ℚ) / ((2 : Nat) : ℚ) = (11 : ℚ) / 2 := by
    rw [h11]
    norm_num
  have hne : (xyz.length : ℚ) / ((2 : Nat) : ℚ) ≠ (colors.length : ℚ) := by
    rw [hratio]
    intro hc
    have h2 : (11 : ℚ) = (colors.length : ℚ) * 2 := by
      field_simp at hc
      linarith
    have h3 : (11 : ℕ) = colors.length * 2 := by exact_mod_cast h2
    omega
  have h := clc_check_fail xyz colors PlotMode.xy style 2 alpha
    ⟨by omega, hne⟩
  rw [h, hratio]

/-- Counterexample to C1 as stated: with 11 concrete points, step 2 and
exactly 5 colors, the number of produced segments, the call raises the
length-mismatch error instead of succeeding. -/
theorem colored_line_collection_eleven_points_five_colors_errors :
    colored_line_collection (List.replicate 11 (fun _ => (0 : ℚ)) : List Pt3)
      (List.replicate 5 "red") PlotMode.xy "solid" 2 1 =
      .error (.colorLengthMismatch ((11 : ℚ) / 2) 5) := by
  have hne : (((List.replicate 11 (fun _ => (0 : ℚ)) : List Pt3)).length : ℚ) /
      ((2 : Nat) : ℚ) ≠ (((List.replicate 5 "red" : List String)).length : ℚ) := by
    simp
    norm_num
  have h := clc_check_fail (List.replicate 11 (fun _ => (0 : ℚ)) : List Pt3)
    (List.replicate 5 "red") PlotMode.xy "solid" 2 1 ⟨by omega, hne⟩
  rw [h]
  norm_num

/-- Witness for the amended C1 at 11 concrete points with 4 colors. -/
theorem colored_line_collection_eleven_points_mismatch_witness :
    (List.replicate 11 (fun _ => (0 : ℚ)) : List Pt3).length = 11 ∧
    colored_line_collection (List.replicate 11 (fun _ => (0 : ℚ)) : List Pt3)
      (List.replicate 4 "blue") PlotMode.xy "solid" 2 1 =
      .error (.colorLengthMismatch ((11 : ℚ) / 2)
        (List.replicate 4 "blue" : List String).length) :=
  ⟨by simp,
    colored_line_collection_eleven_points_mismatch
      (List.replicate 11 (fun _ => (0 : ℚ)) : List Pt3)
      (List.replicate 4 "blue") "solid" 1 (by simp)⟩

/-- C5: draw_correspondence_edges fails with a length-mismatch error for
trajectories of unequal pose counts; for equal counts n it interleaves
the positions, builds segments with step 2 so that segment i connects
position i of the first trajectory to position i of the second, and
produces exactly n segments. -/
theorem draw_correspondence_edges_spec :
    (∀ (A B : List Pt3) (mode : PlotMode) (style color : String) (alpha : ℚ),
      A.length ≠ B.length →
      draw_correspondence_edges A B mode style color alpha =
        .error .trajectoryLengthMismatch) ∧
    (∀ (A B : List Pt3) (style color : String) (alpha : ℚ),
      A.length = B.length →
      draw_correspondence_edges A B PlotMode.xy style color alpha =
        .ok (.seg2d ((A.zip B).map (projPair2 PlotMode.xy))
          (List.replicate A.length "red") style alpha) ∧
      ((A.zip B).map (projPair2 PlotMode.xy)).length = A.length) := by
  constructor
  · intro A B mode style color alpha hne
    unfold draw_correspondence_edges
    rw [if_pos hne]
  · intro A B style color alpha heq
    constructor
    · unfold draw_correspondence_edges
      rw [if_neg (not_not_intro heq)]
      apply clc_flattenPairs_step2_ok_2d
      · intro hc
        cases hc
      · simp [heq]
    · simp [List.length_map, List.length_zip, heq]

/-- Witness for C5: trajectories of lengths 5 and 4 fail with the
length-mismatch error, and trajectories of lengths 5 and 5 succeed with
exactly 5 segments connecting corresponding positions. -/
theorem draw_correspondence_edges_spec_witness :
    ((List.replicate 5 (fun _ => (0 : ℚ)) : List Pt3).length ≠
      (List.replicate 4 (fun _ => (1 : ℚ)) : List Pt3).length ∧
      draw_correspondence_edges (List.replicate 5 (fun _ => (0 : ℚ)))
        (List.replicate 4 (fun _ => (1 : ℚ))) PlotMode.xy "-" "black" 1 =
        .error .trajectoryLengthMismatch) ∧
    ((List.replicate 5 (fun _ => (0 : ℚ)) : List Pt3).length =
      (List.replicate 5 (fun _ => (1 : ℚ)) : List Pt3).length ∧
      draw_correspondence_edges (List.replicate 5 (fun _ => (0 : ℚ)))
        (List.replicate 5 (fun _ => (1 : ℚ))) PlotMode.xy "-" "black" 1 =
        .ok (.seg2d
          (((List.replicate 5 (fun _ => (0 : ℚ)) : List Pt3).zip
            (List.replicate 5 (fun _ => (1 : ℚ)) : List Pt3)).map
            (projPair2 PlotMode.xy))
          (List.replicate
            (List.replicate 5 (fun _ => (0 : ℚ)) : List Pt3).length "red")
          "-" 1) ∧
      (((List.replicate 5 (fun _ => (0 : ℚ)) : List Pt3).zip
        (List.replicate 5 (fun _ => (1 : ℚ)) : List Pt3)).map
        (projPair2 PlotMode.xy)).length =
        (List.replicate 5 (fun _ => (0 : ℚ)) : List Pt3).length) := by
  refine ⟨⟨by simp, ?_⟩, ⟨by simp, ?_, ?_⟩⟩
  · exact draw_correspondence_edges_spec.1
      (List.replicate 5 (fun _ => (0 : ℚ)))
      (List.replicate 4 (fun _ => (1 : ℚ))) PlotMode.xy "-" "black" 1
      (by simp)
  · exact (draw_correspondence_edges_spec.2
      (List.replicate 5 (fun _ => (0 : ℚ)))
      (List.replicate 5 (fun _ => (1 : ℚ))) "-" "black" 1 (by simp)).1
  · exact (draw_correspondence_edges_spec.2
      (List.replicate 5 (fun _ => (0 : ℚ)))
      (List.replicate 5 (fun _ => (1 : ℚ))) "-" "black" 1 (by simp)).2

/-- C10: draw_correspondence_edges ignores its color argument: any two
color values give identical results, and every successful call colors
every edge red, because the parameter is unconditionally overwritten
before the colors array is built. -/
theorem draw_correspondence_edges_ignores_color :
    (∀ (A B : List Pt3) (mode : PlotMode) (style : String) (alpha : ℚ)
      (c1 c2 : String),
      draw_correspondence_edges A B mode style c1 alpha =
        draw_correspondence_edges A B mode style c2 alpha) ∧
    (∀ (A B : List Pt3) (mode : PlotMode) (style color : String) (alpha : ℚ)
      (coll : LineColl),
      draw_correspondence_edges A B mode style color alpha = .ok coll →
      coll.colors = List.replicate A.length "red") := by
  constructor
  · intro A B mode style alpha c1 c2
    rfl
  · intro A B mode style color alpha coll h
    unfold draw_correspondence_edges at h
    by_cases heq : A.length = B.length
    · rw [if_neg (not_not_intro heq)] at h
      exact clc_colors_of_ok _ _ _ _ _ _ _ h
    · rw [if_pos heq] at h
      cases h

/-- Witness for C10: a successful call on two one-point trajectories with
color blue yields a collection whose only edge color is red. -/
theorem draw_correspondence_edges_ignores_color_witness :
    draw_correspondence_edges [fun _ => (0 : ℚ)] [fun _ => (1 : ℚ)]
      PlotMode.xy "-" "blue" 1 =
      .ok (.seg2d (([(fun _ => (0 : ℚ) : Pt3)].zip
        [(fun _ => (1 : ℚ) : Pt3)]).map (projPair2 PlotMode.xy))
        (List.replicate 1 "red") "-" 1) ∧
    (LineColl.seg2d (([(fun _ => (0 : ℚ) : Pt3)].zip
        [(fun _ => (1 : ℚ) : Pt3)]).map (projPair2 PlotMode.xy))
        (List.replicate 1 "red") "-" 1).colors =
      List.replicate ([(fun _ => (0 : ℚ) : Pt3)] : List Pt3).length "red" := by
  have hok : draw_correspondence_edges [fun _ => (0 : ℚ)] [fun _ => (1 : ℚ)]
      PlotMode.xy "-" "blue" 1 =
      .ok (.seg2d (([(fun _ => (0 : ℚ) : Pt3)].zip
        [(fun _ => (1 : ℚ) : Pt3)]).map (projPair2 PlotMode.xy))
        (List.replicate 1 "red") "-" 1) := by
    unfold draw_correspondence_edges
    have hlen : ([(fun _ => (0 : ℚ) : Pt3)] : List Pt3).length =
        ([(fun _ => (1 : ℚ) : Pt3)] : List Pt3).length := rfl
    rw [if_neg (not_not_intro hlen)]
    apply clc_flattenPairs_step2_ok_2d
    · intro hc
      cases hc
    · simp
  exact ⟨hok,
    draw_correspondence_edges_ignores_color.2 [fun _ => (0 : ℚ)]
      [fun _ => (1 : ℚ)] PlotMode.xy "-" "blue" 1 _ hok⟩

/-- C7: draw_coordinate_axes emits segments concatenated in x-axis-block,
y-axis-block, z-axis-block order, each segment running from the pose
translation to the world-transformed scaled axis tip, with colors in the
same block order (N copies each); a non-positive scale is a no-op that
draws nothing and raises no error. -/
theorem draw_coordinate_axes_spec :
    (∀ (poses : List Pose) (mode : PlotMode) (scale : ℚ)
      (cx cy cz : String), scale ≤ 0 →
      draw_coordinate_axes poses mode scale cx cy cz = .ok none) ∧
    (∀ (poses : List Pose) (mode : PlotMode) (scale : ℚ)
      (cx cy cz : String), 0 < scale → mode ≠ PlotMode.xyz →
      draw_coordinate_axes poses mode scale cx cy cz =
        .ok (some (.seg2d
          ((poses.map (fun p => (pose_translation p,
              dotHead3 p ![1 * scale, 0, 0, 1])) ++
            poses.map (fun p => (pose_translation p,
              dotHead3 p ![0, 1 * scale, 0, 1])) ++
            poses.map (fun p => (pose_translation p,
              dotHead3 p ![0, 0, 1 * scale, 1]))).map (projPair2 mode))
          (List.replicate poses.length cx ++ List.replicate poses.length cy ++
            List.replicate poses.length cz) "solid" 1))) ∧
    (∀ (poses : List Pose) (scale : ℚ) (cx cy cz : String), 0 < scale →
      draw_coordinate_axes poses PlotMode.xyz scale cx cy cz =
        .ok (some (.seg3d
          ((poses.map (fun p => (pose_translation p,
              dotHead3 p ![1 * scale, 0, 0, 1])) ++
            poses.map (fun p => (pose_translation p,
              dotHead3 p ![0, 1 * scale, 0, 1])) ++
            poses.map (fun p => (pose_translation p,
              dotHead3 p ![0, 0, 1 * scale, 1]))).map
            (projPair3 PlotMode.xyz))
          (List.replicate poses.length cx ++ List.replicate poses.length cy ++
            List.replicate poses.length cz) "solid" 1))) := by
  refine ⟨?_, ?_, ?_⟩
  · intro poses mode scale cx cy cz hle
    unfold draw_coordinate_axes
    rw [if_pos hle]
  · intro poses mode scale cx cy cz hpos hm
    have hcol : (List.replicate poses.length cx ++
        List.replicate poses.length cy ++
        List.replicate poses.length cz).length =
        (poses.map (fun p => (pose_translation p,
            dotHead3 p ![1 * scale, 0, 0, 1])) ++
          poses.map (fun p => (pose_translation p,
            dotHead3 p ![0, 1 * scale, 0, 1])) ++
          poses.map (fun p => (pose_translation p,
            dotHead3 p ![0, 0, 1 * scale, 1]))).length := by
      simp
    have key := clc_flattenPairs_step2_ok_2d
      (poses.map (fun p => (pose_translation p,
          dotHead3 p ![1 * scale, 0, 0, 1])) ++
        poses.map (fun p => (pose_translation p,
          dotHead3 p ![0, 1 * scale, 0, 1])) ++
        poses.map (fun p => (pose_translation p,
          dotHead3 p ![0, 0, 1 * scale, 1])))
      (List.replicate poses.length cx ++ List.replicate poses.length cy ++
        List.replicate poses.length cz) mode "solid" 1 hm hcol
    unfold draw_coordinate_axes
    rw [if_neg (not_le.mpr hpos)]
    simp only [key]
  · intro poses scale cx cy cz hpos
    have hcol : (List.replicate poses.length cx ++
        List.replicate poses.length cy ++
        List.replicate poses.length cz).length =
        (poses.map (fun p => (pose_translation p,
            dotHead3 p ![1 * scale, 0, 0, 1])) ++
          poses.map (fun p => (pose_translation p,
            dotHead3 p ![0, 1 * scale, 0, 1])) ++
          poses.map (fun p => (pose_translation p,
            dotHead3 p ![0, 0, 1 * scale, 1]))).length := by
      simp
    have key := clc_flattenPairs_step2_ok_3d
      (poses.map (fun p => (pose_translation p,
          dotHead3 p ![1 * scale, 0, 0, 1])) ++
        poses.map (fun p => (pose_translation p,
          dotHead3 p ![0, 1 * scale, 0, 1])) ++
        poses.map (fun p => (pose_translation p,
          dotHead3 p ![0, 0, 1 * scale, 1])))
      (List.replicate poses.length cx ++ List.replicate poses.length cy ++
        List.replicate poses.length cz) "solid" 1 hcol
    unfold draw_coordinate_axes
    rw [if_neg (not_le.mpr hpos)]
    simp only [key]

/-- Witness for C7: scale -1 on one pose is an error-free no-op, and
scale 1 on one pose yields the projected block-ordered segments with one
copy of each axis color. -/
theorem draw_coordinate_axes_spec_witness :
    ((-1 : ℚ) ≤ 0 ∧
      draw_coordinate_axes [fun _ _ => (0 : ℚ)] PlotMode.xy (-1) "r" "g" "b" =
        .ok none) ∧
    ((0 : ℚ) < 1 ∧
      draw_coordinate_axes [fun _ _ => (0 : ℚ)] PlotMode.xy 1 "r" "g" "b" =
        .ok (some (.seg2d
          ((([fun _ _ => (0 : ℚ)] : List Pose).map (fun p => (pose_translation p,
              dotHead3 p ![1 * 1, 0, 0, 1])) ++
            ([fun _ _ => (0 : ℚ)] : List Pose).map (fun p => (pose_translation p,
              dotHead3 p ![0, 1 * 1, 0, 1])) ++
            ([fun _ _ => (0 : ℚ)] : List Pose).map (fun p => (pose_translation p,
              dotHead3 p ![0, 0, 1 * 1, 1]))).map (projPair2 PlotMode.xy))
          (List.replicate ([fun _ _ => (0 : ℚ)] : List Pose).length "r" ++
            List.replicate ([fun _ _ => (0 : ℚ)] : List Pose).length "g" ++
            List.replicate ([fun _ _ => (0 : ℚ)] : List Pose).length "b")
          "solid" 1))) := by
  constructor
  · exact ⟨by norm_num,
      draw_coordinate_axes_spec.1 [fun _ _ => (0 : ℚ)] PlotMode.xy (-1)
        "r" "g" "b" (by norm_num)⟩
  · exact ⟨by norm_num,
      draw_coordinate_axes_spec.2.1 [fun _ _ => (0 : ℚ)] PlotMode.xy 1
        "r" "g" "b" (by norm_num) (by decide)⟩

/-- C8 (amended): PlotCollection construction applies no shape validation
to the deserialized blob: any successfully decoded value, of the expected
mapping shape or not, is stored as the figures mapping unchanged, and a
blob that fails to decode propagates the generic error of the decoder. -/
theorem plot_collection_init_no_shape_validation :
    ∀ (pickle_load : String → Except String PyValue) (title path : String),
      (∀ v : PyValue, pickle_load path = .ok v →
        PlotCollection.init pickle_load title (some path) =
          .ok { title := one_line_title title, figures := v,
                root_window := none }) ∧
      (∀ e : String, pickle_load path = .error e →
        PlotCollection.init pickle_load title (some path) = .error e) := by
  intro pickle_load title path
  constructor
  · intro v hv
    show (match pickle_load path with
      | Except.error e => Except.error e
      | Except.ok w =>
          Except.ok (PlotCollection.mk (one_line_title title) w none)) =
      Except.ok (PlotCollection.mk (one_line_title title) v none)
    rw [hv]
  · intro e he
    show (match pickle_load path with
      | Except.error e2 => Except.error e2
      | Except.ok w =>
          Except.ok (PlotCollection.mk (one_line_title title) w none)) =
      Except.error e
    rw [he]

/-- Counterexample to C8 as stated: a blob decoding to a plain integer,
which is not the expected mapping shape, does not make construction fail
with a data-corruption error; construction succeeds and stores the
integer. -/
theorem plot_collection_init_accepts_non_mapping :
    PlotCollection.init (fun _ => .ok (.pyInt 5)) "t" (some "figures.p") =
      .ok { title := one_line_title "t", figures := .pyInt 5,
            root_window := none } := rfl

/-- Witness for the amended C8 on a concrete loader, path and error. -/
theorem plot_collection_init_no_shape_validation_witness :
    ((fun _ : String => (.ok (.figuresDict [("traj_xy", 0)]) :
        Except String PyValue)) "p.pickle" =
      .ok (.figuresDict [("traj_xy", 0)]) ∧
      PlotCollection.init
        (fun _ => .ok (.figuresDict [("traj_xy", 0)])) "abc" (some "p.pickle") =
        .ok { title := one_line_title "abc",
              figures := .figuresDict [("traj_xy", 0)],
              root_window := none }) ∧
    ((fun _ : String => (.error "unpickling error" :
        Except String PyValue)) "p.pickle" = .error "unpickling error" ∧
      PlotCollection.init
        (fun _ => .error "unpickling error") "abc" (some "p.pickle") =
        .error "unpickling error") := by
  constructor
  · exact ⟨rfl,
      (plot_collection_init_no_shape_validation
        (fun _ => .ok (.figuresDict [("traj_xy", 0)])) "abc" "p.pickle").1
        (.figuresDict [("traj_xy", 0)]) rfl⟩
  · exact ⟨rfl,
      (plot_collection_init_no_shape_validation
        (fun _ => .error "unpickling error") "abc" "p.pickle").2
        "unpickling error" rfl⟩
